import Mathlib

set_option maxHeartbeats 1000000

/-!
Verification development for the mcp-api-client repository (src/app.py, src/cli.py).

The Python values that flow through the chunk classifier and aggregator are
modelled by `PyVal`; Python exceptions raised by `in`, subscripting and
attribute access are modelled by `PyErr` and the `Except` monad.  Each Python
function of the two source files is embedded as a Lean function of the same
name (modulo the leading underscore, which Lean does not allow); functions
that print model their stdout output as a returned `String`.
-/

/-- A Python value as it appears in chunk payloads: a string, a bool, a dict
with string keys, or a list. -/
inductive PyVal where
  | pstr (s : String)
  | pbool (b : Bool)
  | pdict (entries : List (String × PyVal))
  | plist (items : List PyVal)

/-- A Python exception relevant to the embedded code paths. -/
inductive PyErr where
  | typeError (msg : String)
  | keyError (key : String)
  | indexError
  | attributeError (msg : String)
deriving DecidableEq

/-- `listPrefOf a b` is true when the char list `a` is an initial segment of `b`. -/
def listPrefOf (pre cs : List Char) : Bool :=
  match pre with
  | [] => true
  | a :: as =>
    match cs with
    | [] => false
    | b :: bs => a == b && listPrefOf as bs

/-- Occurrence of `needle` anywhere in the char list (Python `needle in haystack`
on strings). -/
def hasSubstrAux (needle : List Char) : List Char → Bool
  | [] => listPrefOf needle []
  | b :: bs => listPrefOf needle (b :: bs) || hasSubstrAux needle bs

/-- Python `needle in hay` for strings: substring containment. -/
def pyInStr (needle hay : String) : Bool :=
  hasSubstrAux needle.toList hay.toList

/-- Python `s.startswith(pre)`. -/
def pyStartsWith (s pre : String) : Bool :=
  listPrefOf pre.toList s.toList

/-- Python `s.endswith(suf)`. -/
def pyEndsWith (s suf : String) : Bool :=
  listPrefOf suf.toList.reverse s.toList.reverse

/-- Python slice `s[front:-back]` (empty when the bounds cross). -/
def pySliceDrop (s : String) (front back : Nat) : String :=
  String.mk (((s.toList.drop front).reverse.drop back).reverse)

/-- The whitespace set of Python `str.strip()`. -/
def pyWsChar (c : Char) : Bool :=
  [' ', '\t', '\n', '\r', '\x0b', '\x0c'].contains c

/-- Python `s.strip()`. -/
def pyStrip (s : String) : String :=
  String.mk (((s.toList.dropWhile pyWsChar).reverse.dropWhile pyWsChar).reverse)

/-- Python `s.replace("\n", "")`: every newline character removed. -/
def stripNl (s : String) : String :=
  String.mk (s.toList.filter (fun c => c != '\n'))

/-- Python `"".join(parts)`. -/
def concatAll : List String → String
  | [] => ""
  | s :: rest => s ++ concatAll rest

/-- Dict lookup by key (first binding wins, as in a Python dict literal
with distinct keys). -/
def lookupEntry (key : String) : List (String × PyVal) → Option PyVal
  | [] => none
  | (k, v) :: rest => if k == key then some v else lookupEntry key rest

/-- Python `key in items` for a list: membership by equality with a string. -/
def listHasStr (key : String) : List PyVal → Bool
  | [] => false
  | .pstr s :: rest => s == key || listHasStr key rest
  | _ :: rest => listHasStr key rest

/-- Python `key in v`.  On a string this is a SUBSTRING test; on a dict a key
test; on a list a membership test; on a bool it raises `TypeError`. -/
def pyContains (key : String) : PyVal → Except PyErr Bool
  | .pstr s => .ok (pyInStr key s)
  | .pbool _ => .error (.typeError "argument of type bool is not iterable")
  | .pdict es => .ok (lookupEntry key es).isSome
  | .plist items => .ok (listHasStr key items)

/-- Python `v[key]` for a string key: dict lookup (possible `KeyError`);
subscripting a string or list with a string raises `TypeError`. -/
def pySubscript (v : PyVal) (key : String) : Except PyErr PyVal :=
  match v with
  | .pdict es =>
    match lookupEntry key es with
    | some x => .ok x
    | none => .error (.keyError key)
  | .pstr _ => .error (.typeError "string indices must be integers")
  | .plist _ => .error (.typeError "list indices must be integers or slices, not str")
  | .pbool _ => .error (.typeError "bool object is not subscriptable")

/-- Python truthiness of the modelled values. -/
def pyTruthy : PyVal → Bool
  | .pstr s => s != ""
  | .pbool b => b
  | .pdict es => !es.isEmpty
  | .plist items => !items.isEmpty

mutual
/-- Python `repr` of a modelled value (used by `print` on non-strings). -/
def pyRepr : PyVal → String
  | .pstr s => "\x27" ++ s ++ "\x27"
  | .pbool b => if b then "True" else "False"
  | .pdict es => "\x7b" ++ String.intercalate ", " (reprEntries es) ++ "\x7d"
  | .plist items => "[" ++ String.intercalate ", " (reprItems items) ++ "]"

/-- `repr` of each element of a list value. -/
def reprItems : List PyVal → List String
  | [] => []
  | v :: rest => pyRepr v :: reprItems rest

/-- `repr` of each `key: value` binding of a dict value. -/
def reprEntries : List (String × PyVal) → List String
  | [] => []
  | (k, v) :: rest => ("\x27" ++ k ++ "\x27: " ++ pyRepr v) :: reprEntries rest
end

/-- Python `str(v)`: identity on strings, `repr`-like elsewhere. -/
def pyStr : PyVal → String
  | .pstr s => s
  | v => pyRepr v

/-- `v.replace(...)` requires a string receiver; anything else raises
`AttributeError`. -/
def expectStr : PyVal → Except PyErr String
  | .pstr s => .ok s
  | _ => .error (.attributeError "object has no attribute replace")

/-- One tool-call descriptor attached to an assistant message. -/
structure ToolCall where
  name : String
  args : List (String × PyVal)
  callId : String

/-- A langchain message object.  `aiMessageChunk` models `AIMessageChunk`,
which in langchain is a subclass of `AIMessage`. -/
inductive LCMessage where
  | aiMessageChunk (content : PyVal) (toolCalls : List ToolCall)
  | aiMessage (content : PyVal) (toolCalls : List ToolCall)
  | humanMessage (content : PyVal)
  | toolMessage (content : PyVal)

/-- Python `isinstance(m, AIMessageChunk)`. -/
def isAIMessageChunk : LCMessage → Bool
  | .aiMessageChunk _ _ => true
  | _ => false

/-- Python `isinstance(m, AIMessage)`; true for `AIMessageChunk` as well,
because `AIMessageChunk` subclasses `AIMessage`. -/
def isAIMessage : LCMessage → Bool
  | .aiMessageChunk _ _ => true
  | .aiMessage _ _ => true
  | _ => false

/-- The `.content` attribute of a message. -/
def msgContent : LCMessage → PyVal
  | .aiMessageChunk c _ => c
  | .aiMessage c _ => c
  | .humanMessage c => c
  | .toolMessage c => c

/-- The `.tool_calls` attribute of an assistant message (empty elsewhere). -/
def msgToolCalls : LCMessage → List ToolCall
  | .aiMessageChunk _ tcs => tcs
  | .aiMessage _ tcs => tcs
  | _ => []

/-- One value yielded by `agent_executor.astream(..., stream_mode=["messages",
"values"])`: a `("messages", payload)` tuple, a `("values", state)` tuple whose
state dict holds the running `"messages"` list, a bare dict containing a
`"messages"` key (the end-of-turn signal), or anything else. -/
inductive AgentChunk where
  | messagesTagged (payload : List LCMessage)
  | valuesTagged (stateMessages : List LCMessage)
  | endOfTurn (messages : List LCMessage)
  | otherChunk

/-- src/app.py `process_message_chunk`: on a `("messages", payload)` tuple take
`payload[0]` (IndexError when empty) and return its `.content` when it is an
`AIMessageChunk`; every other shape returns `""`. -/
def app_process_message_chunk : AgentChunk → Except PyErr PyVal
  | .messagesTagged payload =>
    match payload.head? with
    | none => .error .indexError
    | some m => if isAIMessageChunk m then .ok (msgContent m) else .ok (.pstr "")
  | _ => .ok (.pstr "")

/-- src/app.py `_process_message_chunk`: `if 'text' in content: return
content['text']`, `elif isinstance(content, str): return content`, else `""`.
Note that on a string `content`, `'text' in content` is a substring test, and
the subsequent `content['text']` raises `TypeError`. -/
def app_process_message_content (content : PyVal) : Except PyErr PyVal :=
  match pyContains "text" content with
  | .error e => .error e
  | .ok true => pySubscript content "text"
  | .ok false =>
    match content with
    | .pstr _ => .ok content
    | _ => .ok (.pstr "")

/-- The inner per-item loop of `query_response_without_streaming` over a list
content: `_process_message_chunk(item).replace("\n", "")` collected in order;
the first exception aborts the turn. -/
def collectListItems : List PyVal → Except PyErr (List String)
  | [] => .ok []
  | item :: rest =>
    match app_process_message_content item with
    | .error e => .error e
    | .ok mc =>
      match expectStr mc with
      | .error e => .error e
      | .ok s =>
        match collectListItems rest with
        | .error e => .error e
        | .ok more => .ok (stripNl s :: more)

/-- The per-chunk body of `query_response_without_streaming`: classify the
chunk, skip falsy content, then collect newline-stripped fragments from a list
content or a single content. -/
def collectChunkFrags (chunk : AgentChunk) : Except PyErr (List String) :=
  match app_process_message_chunk chunk with
  | .error e => .error e
  | .ok content =>
    if pyTruthy content then
      match content with
      | .plist items => collectListItems items
      | _ =>
        match app_process_message_content content with
        | .error e => .error e
        | .ok mc =>
          match expectStr mc with
          | .error e => .error e
          | .ok s => .ok [stripNl s]
    else .ok []

/-- The `async for` loop of `query_response_without_streaming` over the chunk
sequence produced by `astream`; an `Except.error` element models `astream`
itself raising at that point of the iteration. -/
def collectResponses : List (Except PyErr AgentChunk) → Except PyErr (List String)
  | [] => .ok []
  | .error e :: _ => .error e
  | .ok c :: rest =>
    match collectChunkFrags c with
    | .error e => .error e
    | .ok fs =>
      match collectResponses rest with
      | .error e => .error e
      | .ok more => .ok (fs ++ more)

/-- src/app.py `query_response_without_streaming`: join the collected
fragments; any exception raised inside the `try` is caught, logged, and turned
into the empty string. -/
def query_response_without_streaming (chunks : List (Except PyErr AgentChunk)) : String :=
  match collectResponses chunks with
  | .ok frags => concatAll frags
  | .error _ => ""

/-- The inner per-item loop of `query_response_with_streaming` over a list
content: each `_process_message_chunk(item)` is yielded as it is produced, so
fragments before a raising item are still emitted. -/
def streamParts : List PyVal → List PyVal × Option PyErr
  | [] => ([], none)
  | item :: rest =>
    match app_process_message_content item with
    | .error e => ([], some e)
    | .ok mc =>
      match streamParts rest with
      | (out, err) => (mc :: out, err)

/-- The per-chunk body of `query_response_with_streaming`: the fragments it
yields and the exception it raises, if any. -/
def streamChunkStep (chunk : AgentChunk) : List PyVal × Option PyErr :=
  match app_process_message_chunk chunk with
  | .error e => ([], some e)
  | .ok content =>
    if pyTruthy content then
      match content with
      | .plist items => streamParts items
      | _ =>
        match app_process_message_content content with
        | .error e => ([], some e)
        | .ok mc => ([mc], none)
    else ([], none)

/-- src/app.py `query_response_with_streaming`: the list of yielded values for
one turn.  The first exception anywhere inside the `try` stops the iteration
and yields a final `""`. -/
def query_response_with_streaming : List (Except PyErr AgentChunk) → List PyVal
  | [] => []
  | .error _ :: _ => [.pstr ""]
  | .ok c :: rest =>
    match streamChunkStep c with
    | (out, some _) => out ++ [.pstr ""]
    | (out, none) => out ++ query_response_with_streaming rest

/-- The generator of src/cli.py `process_message_chunk`'s list branch:
`''.join(item['text'] for item in content if 'text' in item)`, evaluated left
to right, raising on a non-dict item whose `in`-test passes or on a non-string
joined element. -/
def cliExtractTexts : List PyVal → Except PyErr (List String)
  | [] => .ok []
  | item :: rest =>
    match pyContains "text" item with
    | .error e => .error e
    | .ok false => cliExtractTexts rest
    | .ok true =>
      match pySubscript item "text" with
      | .error e => .error e
      | .ok (.pstr s) =>
        match cliExtractTexts rest with
        | .error e => .error e
        | .ok more => .ok (s :: more)
      | .ok _ => .error (.typeError "sequence item: expected str instance")

/-- src/cli.py `process_message_chunk`: for an `AIMessageChunk`, print the
joined `"text"` fields of a list content, or the content itself otherwise,
with `end=""` (no trailing line break) and `flush=True`.  The returned string
is the exact stdout output. -/
def cli_process_message_chunk (message_chunk : LCMessage) : Except PyErr String :=
  if isAIMessageChunk message_chunk then
    match msgContent message_chunk with
    | .plist items =>
      match cliExtractTexts items with
      | .error e => .error e
      | .ok parts => .ok (concatAll parts)
    | c => .ok (pyStr c)
  else .ok ""

/-- src/cli.py `process_final_value_chunk`: `print("\n", flush=True)` writes
the `"\n"` argument followed by `print`'s default `"\n"` terminator — two
newline characters on stdout. -/
def process_final_value_chunk : String := "\n\n"

/-- One rendered block of a tool call inside the pretty-printed trace. -/
def renderToolCall (tc : ToolCall) : String :=
  "  " ++ tc.name ++ " (" ++ tc.callId ++ ")\n"

/-- The tool-call section of the trace. -/
def renderToolCalls (tcs : List ToolCall) : String :=
  "Tool Calls:\n" ++ concatAll (tcs.map renderToolCall)

/-- Modelled from the spec: langchain `BaseMessage.pretty_print`, an external
collaborator, which per section 4.1 rule 3 must "format and emit them as a
human-readable trace"; rendered as the library's assistant-message banner
followed by one block per tool call. -/
def prettyPrint (m : LCMessage) : String :=
  "================================== Ai Message ==================================\n"
    ++ renderToolCalls (msgToolCalls m)

/-- src/cli.py `process_tool_calls`: pretty-print the message when it is an
`AIMessage` (or subclass) with a non-empty `tool_calls` list; otherwise print
nothing. -/
def process_tool_calls (message : LCMessage) : String :=
  if isAIMessage message && !(msgToolCalls message).isEmpty then prettyPrint message
  else ""

/-- src/cli.py `process_chunk`: dispatch on the chunk shape; the returned
string is the stdout output of the call (`[-1]` on an empty `"values"` state
list and `[0]` on an empty `"messages"` payload raise IndexError). -/
def cli_process_chunk : AgentChunk → Except PyErr String
  | .messagesTagged payload =>
    match payload.head? with
    | none => .error .indexError
    | some m => cli_process_message_chunk m
  | .endOfTurn _ => .ok process_final_value_chunk
  | .valuesTagged stateMessages =>
    match stateMessages.getLast? with
    | none => .error .indexError
    | some m => .ok (process_tool_calls m)
  | .otherChunk => .ok ""

/-- A JSON value as produced by parsing; number literals are modelled as
integers. -/
inductive JsonVal where
  | jnull
  | jbool (b : Bool)
  | jnum (n : Int)
  | jstr (s : String)
  | jarr (items : List JsonVal)
  | jobj (entries : List (String × JsonVal))

/-- JSON insignificant whitespace. -/
def jsonWs (c : Char) : Bool :=
  [' ', '\t', '\n', '\r'].contains c

/-- Drop leading JSON whitespace. -/
def skipWs (cs : List Char) : List Char := cs.dropWhile jsonWs

/-- JSON string escapes handled by the model. -/
def escPairs : List (Char × Char) :=
  [('n', '\n'), ('t', '\t'), ('r', '\r'), ('"', '"'), ('\\', '\\'), ('/', '/'),
   ('b', '\x08'), ('f', '\x0c')]

/-- Resolve one escape code to the character it denotes. -/
def escChar (c : Char) : Option Char :=
  (escPairs.find? (fun p => p.1 == c)).map (fun p => p.2)

/-- Parse the body of a JSON string literal after the opening quote, returning
its characters and the rest of the input. -/
def parseStrChars : List Char → Option (List Char × List Char)
  | [] => none
  | '"' :: rest => some ([], rest)
  | '\\' :: c :: rest =>
    match escChar c with
    | none => none
    | some e =>
      match parseStrChars rest with
      | none => none
      | some (s, r) => some (e :: s, r)
  | '\\' :: [] => none
  | c :: rest =>
    match parseStrChars rest with
    | none => none
    | some (s, r) => some (c :: s, r)

/-- Split leading decimal digits from the input. -/
def takeDigits : List Char → List Char × List Char
  | [] => ([], [])
  | c :: rest =>
    if c.isDigit then
      match takeDigits rest with
      | (ds, r) => (c :: ds, r)
    else ([], c :: rest)

/-- Numeric value of a digit list. -/
def digitsToNat (ds : List Char) : Nat :=
  ds.foldl (fun acc c => acc * 10 + (c.toNat - 48)) 0

/-- Parse a JSON integer literal (optional leading minus). -/
def parseIntTok (cs : List Char) : Option (Int × List Char) :=
  match cs with
  | '-' :: rest =>
    match takeDigits rest with
    | (ds, r) => if ds.isEmpty then none else some (-(Int.ofNat (digitsToNat ds)), r)
  | _ =>
    match takeDigits cs with
    | (ds, r) => if ds.isEmpty then none else some (Int.ofNat (digitsToNat ds), r)

mutual
/-- Fuel-indexed recursive-descent parse of one JSON value. -/
def parseVal : Nat → List Char → Option (JsonVal × List Char)
  | 0, _ => none
  | fuel + 1, cs =>
    match skipWs cs with
    | 'n' :: 'u' :: 'l' :: 'l' :: rest => some (.jnull, rest)
    | 't' :: 'r' :: 'u' :: 'e' :: rest => some (.jbool true, rest)
    | 'f' :: 'a' :: 'l' :: 's' :: 'e' :: rest => some (.jbool false, rest)
    | '"' :: rest =>
      (match parseStrChars rest with
       | some (s, r) => some (.jstr (String.mk s), r)
       | none => none)
    | '[' :: rest =>
      (match skipWs rest with
       | ']' :: r2 => some (.jarr [], r2)
       | _ =>
         match parseItems fuel rest with
         | some (items, r2) => some (.jarr items, r2)
         | none => none)
    | '\x7b' :: rest =>
      (match skipWs rest with
       | '\x7d' :: r2 => some (.jobj [], r2)
       | _ =>
         match parseEntries fuel rest with
         | some (es, r2) => some (.jobj es, r2)
         | none => none)
    | other =>
      match parseIntTok other with
      | some (n, r) => some (.jnum n, r)
      | none => none

/-- Parse the non-empty element list of a JSON array up to `]`. -/
def parseItems : Nat → List Char → Option (List JsonVal × List Char)
  | 0, _ => none
  | fuel + 1, cs =>
    match parseVal fuel cs with
    | none => none
    | some (v, r) =>
      match skipWs r with
      | ',' :: r2 =>
        (match parseItems fuel r2 with
         | some (vs, r3) => some (v :: vs, r3)
         | none => none)
      | ']' :: r2 => some ([v], r2)
      | _ => none

/-- Parse the non-empty binding list of a JSON object up to the closing
brace. -/
def parseEntries : Nat → List Char → Option (List (String × JsonVal) × List Char)
  | 0, _ => none
  | fuel + 1, cs =>
    match skipWs cs with
    | '"' :: rest =>
      (match parseStrChars rest with
       | none => none
       | some (k, r) =>
         match skipWs r with
         | ':' :: r2 =>
           (match parseVal fuel r2 with
            | none => none
            | some (v, r3) =>
              match skipWs r3 with
              | ',' :: r4 =>
                (match parseEntries fuel r4 with
                 | some (es, r5) => some ((String.mk k, v) :: es, r5)
                 | none => none)
              | '\x7d' :: r4 => some ([(String.mk k, v)], r4)
              | _ => none)
         | _ => none)
    | _ => none
end

/-- Modelled from the spec: Python `json.loads` together with the `is_json`
helper imported from `mcp_client.base`, which is code of this repository not
under src/.  Section 4.2: "attempt to parse the result as JSON; on success
return the parsed structure, on failure return the trimmed string unchanged".
Number literals are modelled as integers. -/
def jsonParse (s : String) : Option JsonVal :=
  let cs := s.toList
  match parseVal (2 * cs.length + 4) cs with
  | some (v, rest) => if (skipWs rest).isEmpty then some v else none
  | none => none

/-- Modelled from the spec: `is_json` from `mcp_client.base` (not under src/),
true exactly when the JSON parse succeeds. -/
def is_json (s : String) : Bool := (jsonParse s).isSome

/-- src/app.py `remove_json_wrappers`: when the string starts with "```json"
and ends with "```", return `input_string[7:-3].strip()`; otherwise return it
as-is. -/
def remove_json_wrappers (input_string : String) : String :=
  if pyStartsWith input_string "```json" && pyEndsWith input_string "```" then
    pyStrip (pySliceDrop input_string 7 3)
  else input_string

/-- The body returned by a 200 response of `/chat`, or the yielded stream. -/
inductive ChatBodyOut where
  | jsonOut (j : JsonVal)
  | strOut (s : String)
  | streamOut (fragments : List PyVal)
  | errorOut (detail : String)

/-- src/app.py `_process_json_response`: strip the fence, then
`json.loads(rc) if is_json(rc) else rc`. -/
def process_json_response (response_content : String) : ChatBodyOut :=
  let rc := remove_json_wrappers response_content
  if is_json rc then
    match jsonParse rc with
    | some j => ChatBodyOut.jsonOut j
    | none => ChatBodyOut.strOut rc
  else ChatBodyOut.strOut rc

/-- An exception propagating inside `handle_chat`'s `try` block.  FastAPI's
`HTTPException` subclasses `Exception`, so the blanket `except Exception`
catches it too. -/
inductive AppExc where
  | httpExc (statusCode : Nat) (detail : String)
  | otherExc (msg : String)

/-- Python `str(e)`; starlette's `HTTPException.__str__` renders
`"{status_code}: {detail}"`. -/
def excStr : AppExc → String
  | .httpExc st d => toString st ++ ": " ++ d
  | .otherExc m => m

/-- Python `v is False` on the modelled values: identity with the singleton
`False` object. -/
def isPyFalse : PyVal → Bool
  | .pbool false => true
  | _ => false

/-- The outcome of one `POST /chat` request: HTTP status, body, and whether
the chat turn was actually run on the agent executor. -/
structure ChatOutcome where
  status : Nat
  body : ChatBodyOut
  agentInvoked : Bool

/-- The `try` body of src/app.py `handle_chat` after `create_agent_executor`
(external, assumed to construct without raising): read `message` and
`streaming` with their defaults, raise `HTTPException(400)` on a falsy
message, then answer without or with streaming.  `turnChunks` is the chunk
sequence the agent executor would produce for this turn. -/
def handle_chat_try (body : List (String × PyVal))
    (turnChunks : List (Except PyErr AgentChunk)) : Except AppExc ChatBodyOut :=
  let user_message := (lookupEntry "message" body).getD (.pstr "")
  let streaming := (lookupEntry "streaming" body).getD (.pbool false)
  if !pyTruthy user_message then
    .error (.httpExc 400 "Message content is required")
  else if isPyFalse streaming then
    .ok (process_json_response (query_response_without_streaming turnChunks))
  else
    .ok (.streamOut (query_response_with_streaming turnChunks))

/-- src/app.py `handle_chat`: the `except Exception` clause catches every
exception raised in the `try` body — including the `HTTPException(400)` for a
missing message — and re-raises it as a 500 with detail
`"Error processing chat: " + str(e)`.  The only exception the modelled body
raises is the validation one, which happens before the turn is run, so the
error path reports `agentInvoked := false`. -/
def handle_chat (body : List (String × PyVal))
    (turnChunks : List (Except PyErr AgentChunk)) : ChatOutcome :=
  match handle_chat_try body turnChunks with
  | .ok out => ChatOutcome.mk 200 out true
  | .error e => ChatOutcome.mk 500 (.errorOut ("Error processing chat: " ++ excStr e)) false

/-- A `("messages", ...)` chunk carrying one `AIMessageChunk` whose content is
a single text part `[dict(text=t)]`; used to feed concrete fragments through
both REST paths. -/
def mkTextPartChunk (t : String) : AgentChunk :=
  .messagesTagged [.aiMessageChunk (.plist [.pdict [("text", .pstr t)]]) []]

/-- Specification-side extraction rule, following the spec's words (section
4.1 rule 1 / section 8): "extraction concatenates only parts containing a
`"text"` key, in original order, skipping others"; kept separate from the
source embeddings so the two can be compared. -/
def specTextFields : List PyVal → List String
  | [] => []
  | .pdict es :: rest =>
    (match lookupEntry "text" es with
     | some (.pstr s) => s :: specTextFields rest
     | _ => specTextFields rest)
  | _ :: rest => specTextFields rest

/-- The spec-side concatenation of the extracted `"text"` fields. -/
def specTextConcat (parts : List PyVal) : String :=
  concatAll (specTextFields parts)

/-- A content part is well formed when it is a dict whose `"text"` binding, if
any, is a string (the shape section 3 gives to `MessageDelta` parts). -/
def partWF : PyVal → Bool
  | .pdict es =>
    (match lookupEntry "text" es with
     | some (.pstr _) => true
     | some _ => false
     | none => true)
  | _ => false

/-! ## Helper lemmas -/

/-- The pretty-printed trace always carries the banner line, so it is never
the empty string. -/
theorem prettyPrint_ne_empty (m : LCMessage) : prettyPrint m ≠ "" := by
  intro h
  have h2 := congrArg String.length h
  rw [prettyPrint, String.length_append] at h2
  have h3 : ("================================== Ai Message ==================================\n" : String).length = 81 := rfl
  rw [h3] at h2
  simp at h2

/-- Feeding single-text-part chunks through the non-streaming collector yields
exactly the newline-stripped fragments, in order. -/
theorem collect_mkText (ts : List String) :
    collectResponses (ts.map (fun t => Except.ok (mkTextPartChunk t)))
      = Except.ok (ts.map stripNl) := by
  induction ts with
  | nil => rfl
  | cons t rest ih =>
    have h1 : collectChunkFrags (mkTextPartChunk t) = .ok [stripNl t] := rfl
    simp only [List.map_cons, collectResponses, h1, ih]
    rfl

/-- Feeding single-text-part chunks through the streaming generator yields the
fragments verbatim, in order. -/
theorem stream_mkText (ts : List String) :
    query_response_with_streaming (ts.map (fun t => Except.ok (mkTextPartChunk t)))
      = ts.map PyVal.pstr := by
  induction ts with
  | nil => rfl
  | cons t rest ih =>
    have h1 : streamChunkStep (mkTextPartChunk t) = ([PyVal.pstr t], none) := rfl
    simp only [List.map_cons, query_response_with_streaming, h1, ih]
    rfl

/-- On well-formed content parts, the CLI generator and the REST streaming
per-part extraction both realise the spec's extraction rule, raising nothing. -/
theorem extraction_aux (parts : List PyVal) (h : parts.all partWF = true) :
    cliExtractTexts parts = Except.ok (specTextFields parts)
    ∧ (streamParts parts).2 = none
    ∧ concatAll ((streamParts parts).1.map pyStr) = concatAll (specTextFields parts) := by
  induction parts with
  | nil => exact ⟨rfl, rfl, rfl⟩
  | cons p rest ih =>
    simp only [List.all_cons, Bool.and_eq_true] at h
    obtain ⟨hp, hr⟩ := h
    obtain ⟨ih1, ih2, ih3⟩ := ih hr
    cases p with
    | pstr s => simp [partWF] at hp
    | pbool b => simp [partWF] at hp
    | plist items => simp [partWF] at hp
    | pdict es =>
      cases hl : lookupEntry "text" es with
      | none =>
        refine ⟨?_, ?_, ?_⟩
        · simp only [cliExtractTexts, pyContains, hl, Option.isSome, specTextFields]
          exact ih1
        · simp only [streamParts, app_process_message_content, pyContains, hl, Option.isSome, ih2]
        · simp only [streamParts, app_process_message_content, pyContains, hl, Option.isSome,
            specTextFields, List.map, pyStr, concatAll]
          simpa using ih3
      | some v =>
        cases v with
        | pstr s =>
          refine ⟨?_, ?_, ?_⟩
          · simp only [cliExtractTexts, pyContains, hl, Option.isSome, pySubscript, ih1,
              specTextFields]
          · simp only [streamParts, app_process_message_content, pyContains, hl, Option.isSome,
              pySubscript, ih2]
          · simp only [streamParts, app_process_message_content, pyContains, hl, Option.isSome,
              pySubscript, specTextFields, List.map, pyStr, concatAll]
            rw [ih3]
        | pbool b => simp [partWF, hl] at hp
        | pdict es2 => simp [partWF, hl] at hp
        | plist items => simp [partWF, hl] at hp

/-! ## Claim theorems -/

/-- Claim C1 (code bug): the spec demands that a `POST /chat` request without
a usable `"message"` answers HTTP 400 and never runs the chat turn.  The code
does raise `HTTPException(400)` before running the turn, but raises it inside
the `try` whose blanket `except Exception` catches it — `HTTPException`
subclasses `Exception` — and converts it into a 500.  At the failing input
(an empty request body) the endpoint therefore answers 500, not 400, while
the agent turn is indeed never executed. -/
theorem chat_missing_message_rejected_with_500_not_400 :
    handle_chat [] [] = ChatOutcome.mk 500
        (ChatBodyOut.errorOut "Error processing chat: 400: Message content is required") false
    ∧ (handle_chat [] []).status ≠ 400
    ∧ (handle_chat [] []).agentInvoked = false := by
  refine ⟨rfl, by decide, rfl⟩

/-- Claim C2 counterexample: on an end-of-turn signal the CLI runs
`print("\n", flush=True)`, which writes the `"\n"` argument plus `print`'s
default terminator — two newline characters, not exactly one. -/
theorem end_of_turn_prints_two_newlines_not_one :
    cli_process_chunk (AgentChunk.endOfTurn []) = Except.ok "\n\n"
    ∧ ("\n\n" : String).length = 2
    ∧ cli_process_chunk (AgentChunk.endOfTurn []) ≠ Except.ok "\n" := by
  refine ⟨rfl, rfl, by simp [cli_process_chunk, process_final_value_chunk]⟩

/-- Claim C2 as amended: for every observed end-of-turn signal the CLI prints
exactly two newline characters (the printed `"\n"` plus `print`'s default
line terminator), and fragments are printed with no trailing line break. -/
theorem cli_delivery_newline_discipline :
    (∀ msgs, cli_process_chunk (AgentChunk.endOfTurn msgs) = Except.ok "\n\n")
    ∧ process_final_value_chunk = "\n\n"
    ∧ (∀ s, cli_process_chunk
        (AgentChunk.messagesTagged [LCMessage.aiMessageChunk (PyVal.pstr s) []])
        = Except.ok s) :=
  ⟨fun _ => rfl, rfl, fun _ => rfl⟩

/-- Claim C3 (code bug): for a `"messages"` chunk whose content is the plain
string `"some text"` (which contains the substring `"text"`), the CLI
classifier prints the string exactly, but the REST `_process_message_chunk`
takes the `'text' in content` branch — a substring test on a string — and
`content['text']` raises `TypeError`; the non-streaming aggregate collapses to
`""` and the stream yields `""`.  Strings without the substring pass through
unchanged. -/
theorem plain_string_with_text_substring_breaks_rest_extraction :
    app_process_message_content (PyVal.pstr "some text")
        = Except.error (PyErr.typeError "string indices must be integers")
    ∧ cli_process_message_chunk (LCMessage.aiMessageChunk (PyVal.pstr "some text") [])
        = Except.ok "some text"
    ∧ query_response_without_streaming
        [Except.ok (AgentChunk.messagesTagged
          [LCMessage.aiMessageChunk (PyVal.pstr "some text") []])] = ""
    ∧ query_response_with_streaming
        [Except.ok (AgentChunk.messagesTagged
          [LCMessage.aiMessageChunk (PyVal.pstr "some text") []])] = [PyVal.pstr ""]
    ∧ app_process_message_content (PyVal.pstr "plain prose")
        = Except.ok (PyVal.pstr "plain prose") :=
  ⟨rfl, rfl, rfl, rfl, rfl⟩

/-- Claim C4: on any sequence of content parts (dicts whose `"text"` binding,
if present, is a string), extraction concatenates exactly the `"text"` fields
of the parts that have one, in original order, skipping the others and raising
no exception, in the CLI classifier and in the REST per-part extraction; the
empty sequence yields the empty string. -/
theorem content_part_extraction_matches_spec (parts : List PyVal)
    (h : parts.all partWF = true) :
    cliExtractTexts parts = Except.ok (specTextFields parts)
    ∧ cli_process_message_chunk (LCMessage.aiMessageChunk (PyVal.plist parts) [])
        = Except.ok (specTextConcat parts)
    ∧ (streamParts parts).2 = none
    ∧ concatAll ((streamParts parts).1.map pyStr) = specTextConcat parts
    ∧ specTextConcat [] = "" := by
  obtain ⟨h1, h2, h3⟩ := extraction_aux parts h
  refine ⟨h1, ?_, h2, h3, rfl⟩
  simp only [cli_process_message_chunk, isAIMessageChunk, msgContent, h1, specTextConcat,
    if_true]

/-- Claim C4 witness: a three-part sequence with one text-less part extracts
to `"Hello"` without raising. -/
theorem content_part_extraction_matches_spec_witness :
    cli_process_message_chunk (LCMessage.aiMessageChunk (PyVal.plist
        [PyVal.pdict [("type", PyVal.pstr "thinking")],
         PyVal.pdict [("text", PyVal.pstr "He")],
         PyVal.pdict [("text", PyVal.pstr "llo")]]) [])
      = Except.ok (specTextConcat
        [PyVal.pdict [("type", PyVal.pstr "thinking")],
         PyVal.pdict [("text", PyVal.pstr "He")],
         PyVal.pdict [("text", PyVal.pstr "llo")]])
    ∧ specTextConcat
        [PyVal.pdict [("type", PyVal.pstr "thinking")],
         PyVal.pdict [("text", PyVal.pstr "He")],
         PyVal.pdict [("text", PyVal.pstr "llo")]] = "Hello" :=
  ⟨(content_part_extraction_matches_spec
      [PyVal.pdict [("type", PyVal.pstr "thinking")],
       PyVal.pdict [("text", PyVal.pstr "He")],
       PyVal.pdict [("text", PyVal.pstr "llo")]] (by decide)).2.1, rfl⟩

/-- Claim C5: the non-streaming post-processing parses the fence-stripped
aggregate as JSON when possible and otherwise returns the stripped string
unchanged; the fenced JSON example round-trips to the structure, and plain
prose comes back as the literal string. -/
theorem json_response_round_trip :
    (∀ s j, jsonParse (remove_json_wrappers s) = some j →
        process_json_response s = ChatBodyOut.jsonOut j)
    ∧ (∀ s, jsonParse (remove_json_wrappers s) = none →
        process_json_response s = ChatBodyOut.strOut (remove_json_wrappers s))
    ∧ process_json_response "```json\n\x7b\"a\":1\x7d\n```"
        = ChatBodyOut.jsonOut (JsonVal.jobj [("a", JsonVal.jnum 1)])
    ∧ process_json_response "hello" = ChatBodyOut.strOut "hello" := by
  refine ⟨?_, ?_, rfl, rfl⟩
  · intro s j h
    simp only [process_json_response, is_json, h, Option.isSome, if_true]
  · intro s h
    simp only [process_json_response, is_json, h, Option.isSome]
    rfl

/-- Claim C5 witness: a bare JSON array parses, and prose stays a string. -/
theorem json_response_round_trip_witness :
    process_json_response "[1, 2]"
        = ChatBodyOut.jsonOut (JsonVal.jarr [JsonVal.jnum 1, JsonVal.jnum 2])
    ∧ process_json_response "plain prose"
        = ChatBodyOut.strOut (remove_json_wrappers "plain prose") :=
  ⟨json_response_round_trip.1 "[1, 2]" (JsonVal.jarr [JsonVal.jnum 1, JsonVal.jnum 2]) rfl,
   json_response_round_trip.2.1 "plain prose" rfl⟩

/-- Claim C6: the non-streaming aggregation removes every newline inside each
extracted fragment and concatenates with no separator, while the streaming
path forwards the same fragments verbatim; in particular the fragments
`["ab\ncd", "ef"]` aggregate to `"abcdef"`. -/
theorem nonstreaming_strips_newlines_streaming_preserves :
    (∀ ts : List String,
        query_response_without_streaming (ts.map (fun t => Except.ok (mkTextPartChunk t)))
          = concatAll (ts.map stripNl)
        ∧ query_response_with_streaming (ts.map (fun t => Except.ok (mkTextPartChunk t)))
          = ts.map PyVal.pstr)
    ∧ query_response_without_streaming
        [Except.ok (mkTextPartChunk "ab\ncd"), Except.ok (mkTextPartChunk "ef")] = "abcdef"
    ∧ stripNl "ab\ncd" = "abcd" := by
  refine ⟨fun ts => ⟨?_, stream_mkText ts⟩, rfl, rfl⟩
  simp only [query_response_without_streaming, collect_mkText ts]

/-- Claim C7: the non-streaming aggregator's `try` boundary is total — when
consuming the chunk sequence raises, the caller receives `""` rather than the
exception, and when it does not raise, the caller receives the joined
fragments. -/
theorem aggregator_swallows_exceptions :
    (∀ chunks e, collectResponses chunks = Except.error e →
        query_response_without_streaming chunks = "")
    ∧ (∀ chunks frags, collectResponses chunks = Except.ok frags →
        query_response_without_streaming chunks = concatAll frags) := by
  constructor <;> intro chunks x h <;> simp [query_response_without_streaming, h]

/-- Claim C7 witness: a turn whose chunk source raises mid-iteration yields
the empty aggregate. -/
theorem aggregator_swallows_exceptions_witness :
    query_response_without_streaming
      [Except.ok (mkTextPartChunk "partial"),
       Except.error (PyErr.typeError "connection reset by peer")] = "" :=
  aggregator_swallows_exceptions.1
    [Except.ok (mkTextPartChunk "partial"),
     Except.error (PyErr.typeError "connection reset by peer")]
    (PyErr.typeError "connection reset by peer") rfl

/-- Claim C8: a `"values"` chunk whose last state message is an assistant
message with a non-empty tool-call list makes the CLI print the
pretty-printed trace (never empty), while the REST classifier extracts `""`
from the very same chunk and the REST aggregator collects no fragment. -/
theorem tool_call_trace_cli_only (stateMsgs : List LCMessage) (content : PyVal)
    (tcs : List ToolCall)
    (hlast : stateMsgs.getLast? = some (LCMessage.aiMessage content tcs))
    (hne : tcs ≠ []) :
    cli_process_chunk (AgentChunk.valuesTagged stateMsgs)
        = Except.ok (prettyPrint (LCMessage.aiMessage content tcs))
    ∧ prettyPrint (LCMessage.aiMessage content tcs) ≠ ""
    ∧ app_process_message_chunk (AgentChunk.valuesTagged stateMsgs)
        = Except.ok (PyVal.pstr "")
    ∧ collectChunkFrags (AgentChunk.valuesTagged stateMsgs) = Except.ok [] := by
  refine ⟨?_, prettyPrint_ne_empty _, rfl, rfl⟩
  simp only [cli_process_chunk, hlast]
  cases tcs with
  | nil => exact absurd rfl hne
  | cons tc more =>
    simp [process_tool_calls, isAIMessage, msgToolCalls]

/-- Claim C8 witness: a one-call state produces the trace in CLI mode and
nothing in REST mode. -/
theorem tool_call_trace_cli_only_witness :
    cli_process_chunk (AgentChunk.valuesTagged
        [LCMessage.aiMessage (PyVal.pstr "") [ToolCall.mk "get_weather" [] "call_1"]])
      = Except.ok (prettyPrint
        (LCMessage.aiMessage (PyVal.pstr "") [ToolCall.mk "get_weather" [] "call_1"]))
    ∧ prettyPrint (LCMessage.aiMessage (PyVal.pstr "") [ToolCall.mk "get_weather" [] "call_1"])
        ≠ ""
    ∧ app_process_message_chunk (AgentChunk.valuesTagged
        [LCMessage.aiMessage (PyVal.pstr "") [ToolCall.mk "get_weather" [] "call_1"]])
      = Except.ok (PyVal.pstr "")
    ∧ collectChunkFrags (AgentChunk.valuesTagged
        [LCMessage.aiMessage (PyVal.pstr "") [ToolCall.mk "get_weather" [] "call_1"]])
      = Except.ok [] :=
  tool_call_trace_cli_only
    [LCMessage.aiMessage (PyVal.pstr "") [ToolCall.mk "get_weather" [] "call_1"]]
    (PyVal.pstr "") [ToolCall.mk "get_weather" [] "call_1"] rfl (by simp)

/-- Claim C9 counterexample: the fence stripper is not idempotent on its own
output.  The fenced string whose body is itself fenced strips to
`"```json1```"`, and a second application strips again to `"1"`. -/
theorem fence_strip_not_idempotent_on_nested_fence :
    remove_json_wrappers "```json```json1``````" = "```json1```"
    ∧ remove_json_wrappers "```json1```" = "1"
    ∧ remove_json_wrappers (remove_json_wrappers "```json```json1``````")
        ≠ remove_json_wrappers "```json```json1``````" :=
  ⟨rfl, rfl, by decide⟩

/-- Claim C9 as amended: applying the fence stripper twice is a no-op
provided the result of the first application is not itself fenced (does not
both start with "```json" and end with "```"). -/
theorem fence_strip_idempotent_when_result_unfenced (s : String)
    (h : (pyStartsWith (remove_json_wrappers s) "```json"
          && pyEndsWith (remove_json_wrappers s) "```") = false) :
    remove_json_wrappers (remove_json_wrappers s) = remove_json_wrappers s := by
  have h2 : remove_json_wrappers (remove_json_wrappers s)
      = if pyStartsWith (remove_json_wrappers s) "```json"
            && pyEndsWith (remove_json_wrappers s) "```"
        then pyStrip (pySliceDrop (remove_json_wrappers s) 7 3)
        else remove_json_wrappers s := rfl
  rw [h2, h]
  simp

/-- Claim C9 witness: a prose string is unfenced, and stripping twice equals
stripping once on it. -/
theorem fence_strip_idempotent_when_result_unfenced_witness :
    remove_json_wrappers (remove_json_wrappers "hello") = remove_json_wrappers "hello" :=
  fence_strip_idempotent_when_result_unfenced "hello" (by decide)

/-- Claim C10: a request whose `"message"` field is the empty string takes
exactly the same rejection path as one with the field absent —
`input_message.get("message", "")` makes both falsy — and the chat turn is
never executed in either case. -/
theorem empty_message_equals_absent_message (body : List (String × PyVal))
    (chunks : List (Except PyErr AgentChunk))
    (h : lookupEntry "message" body = some (PyVal.pstr "")
         ∨ lookupEntry "message" body = none) :
    handle_chat body chunks
      = ChatOutcome.mk 500
          (ChatBodyOut.errorOut "Error processing chat: 400: Message content is required")
          false := by
  have ht : handle_chat_try body chunks
      = .error (.httpExc 400 "Message content is required") := by
    rcases h with h | h <;> (unfold handle_chat_try; rw [h]; exact rfl)
  simp only [handle_chat, ht]
  rfl

/-- Claim C10 witness: the empty-string message and the empty body give the
same concrete outcome with no turn executed. -/
theorem empty_message_equals_absent_message_witness :
    handle_chat [("message", PyVal.pstr ""), ("streaming", PyVal.pbool false)] []
      = ChatOutcome.mk 500
          (ChatBodyOut.errorOut "Error processing chat: 400: Message content is required")
          false :=
  empty_message_equals_absent_message
    [("message", PyVal.pstr ""), ("streaming", PyVal.pbool false)] [] (Or.inl rfl)
